import Mathlib

/-!
# Verification of the cqlsh statement-handling and data-movement core

Shallow embedding of `cqlsh.py` (the standalone CQL shell): the execution
engine with bounded retry (`Shell.perform_statement_untraced`), the select
default-limit logic (`Shell.do_select` / `Shell.print_result`), the command
router fallback (`Shell.handle_statement` / `Shell.handle_parse_error`), the
CSV import/export pipeline (`Shell.perform_csv_import`, `Shell.do_import_row`,
`Shell.perform_csv_export`) and the schema regenerator
(`Shell.print_recreate_columnfamily`).

External collaborators (the `cql` driver, the `cqlshlib` grammar/escaping
helpers, the `csv` module) are modelled by the attributes and results the
shell actually consumes, passed as explicit parameters or structure fields.
-/

namespace Cqlsh

/-! ## Execution engine: `Shell.perform_statement_untraced`

`cqlsh.py` lines 907-939.  `self.cursor.execute` can raise
`cql.IntegrityError` (the retryable-conflict class), `cql.ProgrammingError`
(malformed request), one of `CQL_ERRORS` (generic transport/protocol
failures), or any other `Exception`.  The outcome of each attempt is
modelled by an oracle `execOutcome : Nat → ExecOutcome` indexed by the
attempt number `trynum` (starting at 1). -/

/-- Outcome of one `cursor.execute` call, by exception class. -/
inductive ExecOutcome where
  | ok
  | integrityError (msg : String)
  | programmingError (msg : String)
  | cqlError (msg : String)
  | otherError (traceback : String)
deriving Repr, DecidableEq

/-- `Shell.num_retries = 4` (cqlsh.py line 438). -/
def numRetries : Nat := 4

/-- Observable record of one run of the retry loop. -/
structure LoopRun where
  /-- the boolean the surrounding function will return on failure paths -/
  success : Bool
  /-- number of `cursor.execute` calls made -/
  attempts : Nat
  /-- `printerr` payloads, in order -/
  reports : List String
  /-- arguments of the `time.sleep(1*trynum)` calls, in order -/
  sleeps : List Nat
deriving Repr, DecidableEq

/-- The `while True` retry loop of `perform_statement_untraced`
(cqlsh.py lines 910-930), started at attempt number `trynum`.
On `IntegrityError` the code prints `Attempt #trynum: msg`, increments
`trynum`, returns `False` once `trynum > num_retries`, and otherwise sleeps
`1*trynum` (the incremented value) before the next attempt. -/
def attemptLoop (execOutcome : Nat → ExecOutcome) (retries : Nat) (trynum : Nat) :
    LoopRun :=
  match execOutcome trynum with
  | .ok => ⟨true, 1, [], []⟩
  | .integrityError msg =>
    let report := "Attempt #" ++ toString trynum ++ ": " ++ msg
    if h : trynum + 1 > retries then
      ⟨false, 1, [report], []⟩
    else
      let rest := attemptLoop execOutcome retries (trynum + 1)
      ⟨rest.success, rest.attempts + 1, report :: rest.reports,
        (trynum + 1) :: rest.sleeps⟩
  | .programmingError msg => ⟨false, 1, [msg], []⟩
  | .cqlError msg => ⟨false, 1, [msg], []⟩
  | .otherError tb => ⟨false, 1, [tb], []⟩
termination_by retries - trynum
decreasing_by omega

/-- Result of `perform_statement_untraced`: the loop observables plus
whether a result was rendered (`print_result` / `print_static_result`). -/
structure UntracedResult where
  success : Bool
  attempts : Nat
  reports : List String
  sleeps : List Nat
  /-- `print_result` was invoked (select/list statements) -/
  renderedResult : Bool
  /-- `print_static_result` was invoked on the CAS path -/
  renderedCas : Bool
deriving Repr, DecidableEq

/-- `Shell.perform_statement_untraced` (cqlsh.py lines 907-939).
`rowcount` is `self.cursor.rowcount` after a successful execute. -/
def performStatementUntraced (execOutcome : Nat → ExecOutcome)
    (statement : String) (rowcount : Int) : UntracedResult :=
  if statement = "" then ⟨false, 0, [], [], false, false⟩
  else
    let run := attemptLoop execOutcome numRetries 1
    if run.success then
      if (statement.take 6).toLower = "select" ∨
          statement.toLower.startsWith "list" then
        ⟨true, run.attempts, run.reports, run.sleeps, true, false⟩
      else if rowcount > 0 then
        ⟨true, run.attempts, run.reports, run.sleeps, false, true⟩
      else
        ⟨true, run.attempts, run.reports, run.sleeps, false, false⟩
    else ⟨false, run.attempts, run.reports, run.sleeps, false, false⟩

lemma attemptLoop_allIntegrity (msgs : Nat → String) :
    attemptLoop (fun n => .integrityError (msgs n)) numRetries 1 =
      ⟨false, 4,
        ["Attempt #1: " ++ msgs 1, "Attempt #2: " ++ msgs 2,
         "Attempt #3: " ++ msgs 3, "Attempt #4: " ++ msgs 4],
        [2, 3, 4]⟩ := by
  rw [attemptLoop, attemptLoop, attemptLoop, attemptLoop]
  simp [numRetries]
  refine ⟨?_, ?_, ?_, ?_⟩ <;> congr 1

/-- C1: a statement whose every submission raises the retryable-conflict
(`IntegrityError`) class is attempted exactly 4 times (`num_retries = 4`);
each failed attempt is reported as `Attempt #n`, the sleep preceding attempt
`n` lasts `n` time units (the code sleeps `1*trynum` after incrementing
`trynum`, so the sleeps are 2, 3, 4), and after the bound is exceeded the
engine returns failure, the last failed attempt having been reported,
without rendering any result.  In particular 5 (or more) available
consecutive conflict failures still yield exactly 4 attempts. -/
theorem retryable_conflict_four_attempts (msgs : Nat → String)
    (statement : String) (rowcount : Int) (h : statement ≠ "") :
    performStatementUntraced (fun n => .integrityError (msgs n)) statement rowcount =
      ⟨false, 4,
        ["Attempt #1: " ++ msgs 1, "Attempt #2: " ++ msgs 2,
         "Attempt #3: " ++ msgs 3, "Attempt #4: " ++ msgs 4],
        [2, 3, 4], false, false⟩ := by
  rw [performStatementUntraced, if_neg h, attemptLoop_allIntegrity]
  rfl

theorem retryable_conflict_four_attempts_witness :
    ("USE ks;" : String) ≠ "" ∧
    performStatementUntraced (fun _ => .integrityError "conflict") "USE ks;" 0 =
      ⟨false, 4,
        ["Attempt #1: " ++ "conflict", "Attempt #2: " ++ "conflict",
         "Attempt #3: " ++ "conflict", "Attempt #4: " ++ "conflict"],
        [2, 3, 4], false, false⟩ :=
  ⟨by decide,
   retryable_conflict_four_attempts (fun _ => "conflict") "USE ks;" 0 (by decide)⟩

/-- C5: a statement whose submission raises a malformed-request
(`ProgrammingError`) failure or a generic transport/protocol failure
(`CQL_ERRORS`) aborts after exactly one attempt with a single report,
no retry and no sleep — in contrast with the retryable-conflict class. -/
theorem nonretryable_single_attempt (execOutcome : Nat → ExecOutcome)
    (msg : String) (statement : String) (rowcount : Int) (h : statement ≠ "")
    (hout : execOutcome 1 = .programmingError msg ∨ execOutcome 1 = .cqlError msg) :
    performStatementUntraced execOutcome statement rowcount =
      ⟨false, 1, [msg], [], false, false⟩ := by
  rw [performStatementUntraced, if_neg h, attemptLoop]
  rcases hout with hout | hout <;> rw [hout] <;> rfl

theorem nonretryable_single_attempt_witness :
    ("SELEC x;" : String) ≠ "" ∧
    performStatementUntraced (fun _ => .programmingError "Bad Request") "SELEC x;" 0 =
      ⟨false, 1, ["Bad Request"], [], false, false⟩ :=
  ⟨by decide,
   nonretryable_single_attempt (fun _ => .programmingError "Bad Request")
     "Bad Request" "SELEC x;" 0 (by decide) (Or.inl rfl)⟩

/-- C10: on the empty statement text, `perform_statement_untraced` returns
`False` at once: no `cursor.execute` call, no report, no sleep, and no
result rendering. -/
theorem empty_statement_immediate_false (execOutcome : Nat → ExecOutcome)
    (rowcount : Int) :
    performStatementUntraced execOutcome "" rowcount =
      ⟨false, 0, [], [], false, false⟩ := by
  rw [performStatementUntraced, if_pos rfl]

/-! ## Select default limit: `Shell.do_select` and `Shell.print_result`

`cqlsh.py` lines 880-891 and 952-980.  `DEFAULT_SELECT_LIMIT = 10000`
(line 129).  When the parsed select carries no `limit` binding, the final
`;` is dropped and ` LIMIT 10000;` is appended before submission
(`"%s LIMIT %d;" % (statement[:-1], DEFAULT_SELECT_LIMIT)`); the flag
`with_default_limit` is threaded into `print_result`, which emits the
truncation warning when the cursor is a count result whose deserialized
count equals the limit, or when `cursor.rowcount` equals the limit. -/

def DEFAULT_SELECT_LIMIT : Int := 10000

/-- The portion of the driver cursor state that `print_result` consults for
the truncation warning: `rowcount`, whether `description` equals the
count-query description (`is_count_result`), and the deserialized count
value (`get_count`). -/
structure CqlCursor where
  rowcount : Int
  isCountDescription : Bool
  countValue : Int
deriving Repr, DecidableEq

/-- `Shell.do_select` (cqlsh.py lines 880-891): the submitted statement text
and the `with_default_limit` flag. -/
def doSelectStatement (statement : String) (limitBinding : Option String) :
    String × Bool :=
  if limitBinding.isNone then
    (statement.dropRight 1 ++ " LIMIT " ++ toString DEFAULT_SELECT_LIMIT ++ ";",
     true)
  else (statement, false)

/-- The truncation-warning condition of `Shell.print_result`
(cqlsh.py lines 968-974). -/
def printResultWarns (cursor : CqlCursor) (withDefaultLimit : Bool) : Bool :=
  withDefaultLimit &&
    ((cursor.isCountDescription && cursor.countValue == DEFAULT_SELECT_LIMIT) ||
      cursor.rowcount == DEFAULT_SELECT_LIMIT)

lemma default_limit_suffix (s : String) :
    s ++ " LIMIT " ++ toString DEFAULT_SELECT_LIMIT ++ ";" = s ++ " LIMIT 10000;" := by
  rw [String.append_assoc, String.append_assoc]
  congr 1

/-- C4: a select with no explicit `limit` binding is submitted with
` LIMIT 10000;` appended (after dropping the original terminator), and the
truncation warning fires exactly when the default limit was in force and
the row count — or, for a count query, the count value — equals 10000; a
statement that carried its own limit is submitted unchanged and never
warns. -/
theorem select_default_limit_warning (statement : String)
    (limitBinding : Option String) (cursor : CqlCursor) :
    (limitBinding = none →
      doSelectStatement statement limitBinding =
        (statement.dropRight 1 ++ " LIMIT 10000;", true)) ∧
    (limitBinding ≠ none →
      doSelectStatement statement limitBinding = (statement, false)) ∧
    (printResultWarns cursor (doSelectStatement statement limitBinding).2 = true ↔
      limitBinding = none ∧
        ((cursor.isCountDescription = true ∧ cursor.countValue = 10000) ∨
          cursor.rowcount = 10000)) := by
  refine ⟨?_, ?_, ?_⟩
  · intro hnone
    subst hnone
    show (statement.dropRight 1 ++ " LIMIT " ++ toString DEFAULT_SELECT_LIMIT ++ ";",
      true) = _
    rw [default_limit_suffix]
  · intro hsome
    rcases limitBinding with _ | lim
    · exact absurd rfl hsome
    · rfl
  · rcases limitBinding with _ | lim
    · simp [doSelectStatement, printResultWarns, DEFAULT_SELECT_LIMIT]
    · simp [doSelectStatement, printResultWarns]

theorem select_default_limit_warning_witness :
    doSelectStatement "SELECT a FROM t;" none =
      ("SELECT a FROM t;".dropRight 1 ++ " LIMIT 10000;", true) ∧
    printResultWarns ⟨10000, false, 0⟩ (doSelectStatement "SELECT a FROM t;" none).2 = true ∧
    printResultWarns ⟨9999, false, 0⟩ (doSelectStatement "SELECT a FROM t;" none).2 = false ∧
    doSelectStatement "SELECT a FROM t LIMIT 5;" (some "5") =
      ("SELECT a FROM t LIMIT 5;", false) ∧
    printResultWarns ⟨10000, false, 0⟩
      (doSelectStatement "SELECT a FROM t LIMIT 5;" (some "5")).2 = false := by
  refine ⟨(select_default_limit_warning "SELECT a FROM t;" none ⟨10000, false, 0⟩).1 rfl,
    ((select_default_limit_warning "SELECT a FROM t;" none ⟨10000, false, 0⟩).2.2).mpr
      ⟨rfl, Or.inr rfl⟩, ?_,
    (select_default_limit_warning "SELECT a FROM t LIMIT 5;" (some "5")
      ⟨10000, false, 0⟩).2.1 (by simp), ?_⟩
  · have h := (select_default_limit_warning "SELECT a FROM t;" none
      ⟨9999, false, 0⟩).2.2
    rw [Bool.eq_false_iff]
    intro hw
    exact absurd (h.mp hw) (by decide)
  · have h := (select_default_limit_warning "SELECT a FROM t LIMIT 5;" (some "5")
      ⟨10000, false, 0⟩).2.2
    rw [Bool.eq_false_iff]
    intro hw
    exact absurd (h.mp hw) (by decide)

/-! ## CSV import: `Shell.perform_csv_import` and `Shell.do_import_row`

`cqlsh.py` lines 1409-1495.  The `csv.reader` is external: each parsed
record is modelled with its field list and the value `reader.line_num`
held after reading it.  `enumerate(reader)` numbers records from 0, and
`rownum` starts at `-1`, so a run over `n` good records returns `n`.
The outcome of `do_import_row` (which submits one `INSERT` through the
execution engine) is abstracted by `insertOk : Nat → Bool` indexed by the
0-based record number. -/

/-- One record as produced by the external `csv.reader`, together with the
reader's `line_num` after consuming it. -/
structure CsvRecord where
  fields : List String
  lineNum : Nat
deriving Repr, DecidableEq

/-- The two abort conditions of the import loop, with the arguments the
code formats into the `printerr` message. -/
inductive ImportError where
  /-- `Record #%d (line %d) has the wrong number of fields (%d instead of %d).` -/
  | fieldCountMismatch (recordNum lineNum got expected : Nat)
  /-- `Aborting import at record #%d (line %d). ...` -/
  | rowFailure (recordNum lineNum : Nat)
deriving Repr, DecidableEq

/-- Observable outcome of `perform_csv_import`'s record loop. -/
structure ImportResult where
  /-- the function's return value (rows successfully inserted) -/
  returned : Nat
  /-- number of `do_import_row` invocations made -/
  insertAttempts : Nat
  error : Option ImportError
deriving Repr, DecidableEq

/-- The `for rownum, row in enumerate(reader)` loop of `perform_csv_import`
(cqlsh.py lines 1444-1460), started with `idx` records already consumed.
A field-count mismatch returns `rownum` before any insert for that record;
a failed insert returns `rownum` after its attempt; exhaustion returns
`rownum + 1`. -/
def importLoop (ncols : Nat) (insertOk : Nat → Bool) :
    Nat → List CsvRecord → ImportResult
  | idx, [] => ⟨idx, 0, none⟩
  | idx, r :: rest =>
    if r.fields.length ≠ ncols then
      ⟨idx, 0, some (.fieldCountMismatch idx r.lineNum r.fields.length ncols)⟩
    else if insertOk idx then
      let res := importLoop ncols insertOk (idx + 1) rest
      ⟨res.returned, res.insertAttempts + 1, res.error⟩
    else
      ⟨idx, 1, some (.rowFailure idx r.lineNum)⟩

/-- `Shell.perform_csv_import` record processing for a given column list. -/
def performCsvImportRecords (columns : List String) (insertOk : Nat → Bool)
    (records : List CsvRecord) : ImportResult :=
  importLoop columns.length insertOk 0 records

lemma importLoop_mismatch (ncols : Nat) (insertOk : Nat → Bool)
    (r : CsvRecord) (post : List CsvRecord) (hr : r.fields.length ≠ ncols) :
    ∀ (pre : List CsvRecord) (idx : Nat),
    (∀ x ∈ pre, x.fields.length = ncols) →
    (∀ i < pre.length, insertOk (idx + i) = true) →
    importLoop ncols insertOk idx (pre ++ r :: post) =
      ⟨idx + pre.length, pre.length,
        some (.fieldCountMismatch (idx + pre.length) r.lineNum
          r.fields.length ncols)⟩ := by
  intro pre
  induction pre with
  | nil =>
    intro idx _ _
    simp [importLoop, hr]
  | cons x pre ih =>
    intro idx hpre hins
    have hx : x.fields.length = ncols := hpre x (List.mem_cons_self x pre)
    have hx0 : insertOk idx = true := by
      have := hins 0 (by simp)
      simpa using this
    rw [List.cons_append, importLoop]
    rw [if_neg (by simp [hx]), if_pos hx0]
    have hstep := ih (idx + 1)
      (fun y hy => hpre y (List.mem_cons_of_mem x hy))
      (fun i hi => by
        have := hins (i + 1) (by simpa using Nat.succ_lt_succ hi)
        simpa [Nat.add_assoc, Nat.add_comm 1 i] using this)
    rw [hstep]
    simp [Nat.add_assoc, Nat.add_comm 1 pre.length]

/-- C2 (counterexample): with a 3-column list, 4 good records, and a 5th
record (1-based) holding 2 fields whose source position is line 7, the job
aborts returning 4 — but the `printerr` report carries record number 4,
the 0-based `enumerate` index, not the 1-based record number 5 the claim
states. -/
theorem csv_import_record_number_counterexample :
    performCsvImportRecords ["a", "b", "c"] (fun _ => true)
      [⟨["1", "2", "3"], 1⟩, ⟨["4", "5", "6"], 2⟩, ⟨["7", "8", "9"], 3⟩,
       ⟨["10", "11", "12"], 4⟩, ⟨["13", "14"], 7⟩] =
      ⟨4, 4, some (.fieldCountMismatch 4 7 2 3)⟩ ∧ (4 : Nat) ≠ 5 := by
  constructor
  · rfl
  · decide

/-- C2 (amended): a field-count mismatch aborts the whole job at that
record; the report carries the 0-based record index (one less than the
1-based record number) and the reader's source line number; no insert is
attempted for the mismatched record or any later one; and the return value
is the number of rows already successfully inserted (4 when the mismatch
is the 5th record after 4 successes).  Rows already written are untouched
(the loop performs no deletes — its only effect per record is the one
`do_import_row` insert counted here). -/
theorem csv_import_mismatch_aborts (columns : List String)
    (insertOk : Nat → Bool) (pre : List CsvRecord) (r : CsvRecord)
    (post : List CsvRecord)
    (hpre : ∀ x ∈ pre, x.fields.length = columns.length)
    (hins : ∀ i < pre.length, insertOk i = true)
    (hr : r.fields.length ≠ columns.length) :
    performCsvImportRecords columns insertOk (pre ++ r :: post) =
      ⟨pre.length, pre.length,
        some (.fieldCountMismatch pre.length r.lineNum
          r.fields.length columns.length)⟩ := by
  have h := importLoop_mismatch columns.length insertOk r post hr pre 0 hpre
    (fun i hi => by simpa using hins i hi)
  simpa [performCsvImportRecords] using h

theorem csv_import_mismatch_aborts_witness :
    performCsvImportRecords ["a", "b", "c"] (fun _ => true)
      ([⟨["1", "2", "3"], 1⟩, ⟨["4", "5", "6"], 2⟩, ⟨["7", "8", "9"], 3⟩,
        ⟨["10", "11", "12"], 4⟩] ++ ⟨["13", "14"], 7⟩ :: []) =
      ⟨4, 4, some (.fieldCountMismatch 4 7 2 3)⟩ :=
  csv_import_mismatch_aborts ["a", "b", "c"] (fun _ => true) _ _ _
    (by decide) (fun _ _ => rfl) (by decide)

/-! ## Command router: `Shell.handle_statement` and `Shell.handle_parse_error`

`cqlsh.py` lines 835-870.  The leading token's text selects a builtin by
the existence of a `do_<cmdword.lower()>` method; `?` is an alias for
`help`.  The stricter builtin grammar (`cql_whole_parse_tokens`) is
external: its result is `none` for no parse, or `some remainder` with the
unconsumed token texts.  `cql_extract_orig(tokens, srcstr)` is likewise
external; the text it recovers is passed in as `extractedOrig`. -/

/-- The `do_*` methods defined on `Shell` (builtin verbs). -/
def builtinVerbs : List String :=
  ["use", "select", "describe", "copy", "import_row", "import_insert",
   "show", "source", "capture", "tracing", "expand", "consistency",
   "exit", "debug", "help"]

/-- The always-forward set of `Shell.handle_parse_error`
(cqlsh.py lines 861-863). -/
def alwaysForward : List String :=
  ["select", "insert", "update", "delete", "truncate", "create", "drop",
   "alter", "grant", "revoke", "batch", "list"]

/-- Python's `str.lower()` on the token text. -/
def pyLower (s : String) : String :=
  ⟨s.data.map Char.toLower⟩

/-- The `?` alias: `if cmdword == '?': cmdword = 'help'` (lines 847-848). -/
def aliasCmd (t : String) : String :=
  if t == "?" then "help" else t

/-- What the router does with a completed statement. -/
inductive RouteAction where
  /-- invoke the builtin handler `do_<verb>` on the parse -/
  | invokeBuiltin (verb : String)
  /-- forward text to the server via `perform_statement` -/
  | forward (text : String)
  /-- `printerr('Improper %s command ...')`, nothing forwarded -/
  | improperError (verb : String)
deriving Repr, DecidableEq

/-- `Shell.handle_parse_error` (cqlsh.py lines 860-870). -/
def handleParseError (cmdword : String) (extractedOrig : String) : RouteAction :=
  if alwaysForward.contains (pyLower cmdword) then .forward extractedOrig
  else .improperError cmdword

/-- `Shell.handle_statement` (cqlsh.py lines 835-858), after the
readline-history bookkeeping.  `wholeParse` is the outcome of
`cql_whole_parse_tokens`: `none` when it returns nothing, otherwise
`some remainder`. -/
def handleStatement (leadTokenText : String) (extractedOrig : String)
    (wholeParse : Option (List String)) : RouteAction :=
  if builtinVerbs.contains (pyLower (aliasCmd leadTokenText)) then
    match wholeParse with
    | some remainder =>
      if remainder.isEmpty then .invokeBuiltin (pyLower (aliasCmd leadTokenText))
      else handleParseError (aliasCmd leadTokenText) extractedOrig
    | none => handleParseError (aliasCmd leadTokenText) extractedOrig
  else .forward extractedOrig

/-- C6: when the leading token names a builtin but the builtin re-parse
fails or leaves a remainder, the statement is forwarded (as the recovered
original text) exactly when the lowercased token is in the fixed
always-forward set; any other builtin-named token gets the
improper-command error and nothing is forwarded. -/
theorem parse_error_fallback (leadTokenText extractedOrig : String)
    (wholeParse : Option (List String))
    (hbuiltin : builtinVerbs.contains (pyLower (aliasCmd leadTokenText)) = true)
    (hfail : wholeParse = none ∨
      ∃ remainder, wholeParse = some remainder ∧ remainder ≠ []) :
    (handleStatement leadTokenText extractedOrig wholeParse =
        .forward extractedOrig ↔
      alwaysForward.contains (pyLower (aliasCmd leadTokenText)) = true) ∧
    (alwaysForward.contains (pyLower (aliasCmd leadTokenText)) = false →
      handleStatement leadTokenText extractedOrig wholeParse =
        .improperError (aliasCmd leadTokenText)) := by
  have hred : handleStatement leadTokenText extractedOrig wholeParse =
      handleParseError (aliasCmd leadTokenText) extractedOrig := by
    rcases hfail with hnone | ⟨remainder, hsome, hne⟩
    · subst hnone
      simp only [handleStatement]
      rw [if_pos hbuiltin]
    · subst hsome
      simp only [handleStatement]
      rw [if_pos hbuiltin,
        if_neg (by simpa [List.isEmpty_iff] using hne)]
  rw [hred, handleParseError]
  by_cases hfwd : alwaysForward.contains (pyLower (aliasCmd leadTokenText)) = true
  · rw [if_pos hfwd]
    constructor
    · constructor
      · intro _
        exact hfwd
      · intro _
        rfl
    · intro hfalse
      rw [hfwd] at hfalse
      cases hfalse
  · rw [if_neg hfwd]
    constructor
    · constructor
      · intro hforward
        cases hforward
      · intro htrue
        exact absurd htrue hfwd
    · intro _
      rfl

theorem parse_error_fallback_witness :
    (handleStatement "SELECT" "SELECT json * FROM t;" (some ["json"]) =
        .forward "SELECT json * FROM t;" ↔
      alwaysForward.contains (pyLower (aliasCmd "SELECT")) = true) ∧
    handleStatement "describe" "DESCRIBE CLUSTRE;" none =
      .improperError (aliasCmd "describe") :=
  ⟨(parse_error_fallback "SELECT" "SELECT json * FROM t;" (some ["json"])
      (by decide) (Or.inr ⟨["json"], rfl, by decide⟩)).1,
   (parse_error_fallback "describe" "DESCRIBE CLUSTRE;" none
      (by decide) (Or.inl rfl)).2 (by decide)⟩

/-! ## CSV export: `Shell.perform_csv_export`

`cqlsh.py` lines 1497-1546.  The sink is `sys.stdout` when no file name
was given (`do_close = False`) and an `open(fname, 'wb')` handle otherwise
(`do_close = True`); the `finally` block closes the sink exactly when
`do_close` holds, whether the body completed or raised.  The cursor's
result rows are modelled as a list; `failAfter = some k` injects a raised
exception on the write of data row `k` (0-based), modelling an erroneous
completion. -/

structure ExportOutcome where
  /-- the function's return value; `none` when the body raised -/
  returned : Option Nat
  /-- the job opened the sink itself (`do_close` in the code) -/
  openedByJob : Bool
  /-- the sink was closed by the `finally` block -/
  sinkClosed : Bool
  /-- the optional header row was written -/
  headerWritten : Bool
  /-- data rows written to the sink before completion or failure -/
  dataRowsWritten : Nat
deriving Repr, DecidableEq

/-- The fetch/write loop (cqlsh.py lines 1532-1542): rows written and
whether the loop completed without raising. -/
def exportWriteLoop (fetched : List (List String)) (failAfter : Option Nat) :
    Nat × Bool :=
  match failAfter with
  | none => (fetched.length, true)
  | some k =>
    if k < fetched.length then (k, false) else (fetched.length, true)

/-- `Shell.perform_csv_export` (cqlsh.py lines 1497-1546).
`unrecognizedOpts` is the leftover-options check; `openOk` whether
`open(fname, 'wb')` succeeds. -/
def performCsvExport (unrecognizedOpts : Bool) (fname : Option String)
    (openOk : Bool) (header : Bool) (fetched : List (List String))
    (failAfter : Option Nat) : ExportOutcome :=
  if unrecognizedOpts then ⟨some 0, false, false, false, 0⟩
  else
    match fname with
    | none =>
      let r := exportWriteLoop fetched failAfter
      ⟨if r.2 then some r.1 else none, false, false, header, r.1⟩
    | some _ =>
      if openOk then
        let r := exportWriteLoop fetched failAfter
        ⟨if r.2 then some r.1 else none, true, true, header, r.1⟩
      else ⟨some 0, false, false, false, 0⟩

/-- C9: the export sink is closed — on normal or erroneous completion —
exactly when the job itself opened it from a named file; an externally
supplied sink (standard output) is never closed; and whenever the job
returns (rather than propagating an exception) it returns the count of
data rows it wrote to the sink. -/
theorem export_sink_close_and_count (unrecognizedOpts : Bool)
    (fname : Option String) (openOk : Bool) (header : Bool)
    (fetched : List (List String)) (failAfter : Option Nat) :
    (((performCsvExport unrecognizedOpts fname openOk header fetched
        failAfter).sinkClosed = true) ↔
      ((performCsvExport unrecognizedOpts fname openOk header fetched
        failAfter).openedByJob = true)) ∧
    (fname = none →
      (performCsvExport unrecognizedOpts fname openOk header fetched
        failAfter).sinkClosed = false) ∧
    (∀ n, (performCsvExport unrecognizedOpts fname openOk header fetched
        failAfter).returned = some n →
      n = (performCsvExport unrecognizedOpts fname openOk header fetched
        failAfter).dataRowsWritten) := by
  rcases fname with _ | f
  · by_cases hu : unrecognizedOpts
    · simp [performCsvExport, hu]
    · refine ⟨by simp [performCsvExport, hu], fun _ => by
        simp [performCsvExport, hu], fun n hn => ?_⟩
      by_cases hc : (exportWriteLoop fetched failAfter).2
      · simp [performCsvExport, hu, hc] at hn ⊢
        omega
      · simp [performCsvExport, hu, hc] at hn
  · by_cases hu : unrecognizedOpts
    · simp [performCsvExport, hu]
    · by_cases ho : openOk
      · refine ⟨by simp [performCsvExport, hu, ho],
          fun hcontra => absurd hcontra (Option.some_ne_none f),
          fun n hn => ?_⟩
        by_cases hc : (exportWriteLoop fetched failAfter).2
        · simp [performCsvExport, hu, ho, hc] at hn ⊢
          omega
        · simp [performCsvExport, hu, ho, hc] at hn
      · simp [performCsvExport, hu, ho]

theorem export_sink_close_and_count_witness :
    (performCsvExport false none true true [["r1"], ["r2"]] none).sinkClosed
        = false ∧
    ∀ n, (performCsvExport false (some "out.csv") true false
        [["r1"], ["r2"], ["r3"]] none).returned = some n →
      n = (performCsvExport false (some "out.csv") true false
        [["r1"], ["r2"], ["r3"]] none).dataRowsWritten :=
  ⟨(export_sink_close_and_count false none true true [["r1"], ["r2"]]
      none).2.1 rfl,
   (export_sink_close_and_count false (some "out.csv") true false
      [["r1"], ["r2"], ["r3"]] none).2.2⟩

/-! ## CQL types as consumed by the shell

The shell reads these attributes of the external `cql.cqltypes` classes:
`issubclass(t, ReversedType)`, `issubclass(t, CompositeType)`, `t.subtypes`,
`t.cql_parameterized_type()`, and `t.empty_binary_ok` (a per-class flag,
`False` unless the type overrides it). -/

inductive CqlType where
  /-- a concrete storage type, carrying what `cql_parameterized_type()`
  returns for it and its `empty_binary_ok` class flag -/
  | scalar (paramName : String) (emptyBinaryOk : Bool)
  | reversed (sub : CqlType)
  | composite (subs : List CqlType)

/-- `issubclass(t, ReversedType)`. -/
def CqlType.isReversed : CqlType → Bool
  | .reversed _ => true
  | _ => false

/-- `issubclass(t, CompositeType)`. -/
def CqlType.isComposite : CqlType → Bool
  | .composite _ => true
  | _ => false

/-- `t.subtypes`. -/
def CqlType.subtypes : CqlType → List CqlType
  | .reversed s => [s]
  | .composite l => l
  | .scalar _ _ => []

/-- The one-level unwrap `type = type.subtypes[0]` the shell applies after
an `issubclass(type, ReversedType)` check. -/
def CqlType.unwrapReversed : CqlType → CqlType
  | .reversed s => s
  | t => t

/-- `t.cql_parameterized_type()`; the shell only calls it after unwrapping
a reversed wrapper and never on a composite, so only the scalar carrier
matters. -/
def CqlType.cqlParameterizedType : CqlType → String
  | .scalar n _ => n
  | .reversed s => s.cqlParameterizedType
  | .composite _ => ""

/-- `t.empty_binary_ok`: class flag, `False` by library default unless the
concrete type overrides it. -/
def CqlType.emptyBinaryOk : CqlType → Bool
  | .scalar _ ok => ok
  | .reversed _ => false
  | .composite _ => false

/-- Python's `str.title()`, used in `'blobAs%s(0x)' % cqltype.title()`:
an alphabetic character is uppercased when the previous character is
non-alphabetic and lowercased otherwise. -/
def pyTitleAux : Bool → List Char → List Char
  | _, [] => []
  | prevAlpha, c :: cs =>
    let c' := if c.isAlpha then (if prevAlpha then c.toLower else c.toUpper) else c
    c' :: pyTitleAux c.isAlpha cs

def pyTitle (s : String) : String :=
  ⟨pyTitleAux false s.data⟩

/-! ## Null-token handling: `Shell.do_import_row`

`cqlsh.py` lines 1462-1479.  Per `(name, value)` pair the code looks the
column up in the table layout, unwraps a reversed wrapper, and chooses the
literal to place in the generated `INSERT`. -/

structure ImportColumn where
  name : String
  cqltype : CqlType

/-- The slice of `CqlTableDef` that `do_import_row` consults. -/
structure ImportLayout where
  columns : List ImportColumn
  clustering_key_columns : List String

/-- `layout.get_column(name)` (raises on a missing column, hence `Option`). -/
def ImportLayout.getColumn? (layout : ImportLayout) (name : String) :
    Option ImportColumn :=
  layout.columns.find? (fun c => c.name == name)

/-- The literal `do_import_row` stores in `rowmap[name]` for one field
(cqlsh.py lines 1464-1478).  `escapeValue` is the external
`cqlruleset.escape_value` used by `cql_protect_value`. -/
def importFieldLiteral (escapeValue : String → String) (nullval : String)
    (layout : ImportLayout) (name value : String) : Option String :=
  match layout.getColumn? name with
  | none => none
  | some col =>
    let t := col.cqltype.unwrapReversed
    let cqltype := t.cqlParameterizedType
    some (
      if value != nullval then
        if cqltype ∈ (["ascii", "text", "timestamp", "inet"] : List String) then
          escapeValue value
        else value
      else if layout.clustering_key_columns.contains name && !t.emptyBinaryOk then
        "blobAs" ++ pyTitle cqltype ++ "(0x)"
      else "null")

/-- `Shell.do_import_row`'s rowmap (association list in column order). -/
def doImportRow (escapeValue : String → String) (nullval : String)
    (layout : ImportLayout) (columns row : List String) :
    Option (List (String × String)) :=
  (columns.zip row).mapM fun p =>
    (importFieldLiteral escapeValue nullval layout p.1 p.2).map fun lit =>
      (p.1, lit)

/-- C3: a field equal to the configured null token maps to the literal
`null`, except when its column is among the clustering-key columns and the
(unwrapped) type disallows empty encoding, in which case the zero-length
cast `blobAs<Type>(0x)` is substituted; consequently such a column never
receives an empty literal or the empty-string literal `''` for a
null-token field. -/
theorem null_token_field_mapping (escapeValue : String → String)
    (nullval : String) (layout : ImportLayout) (name : String)
    (col : ImportColumn) (hcol : layout.getColumn? name = some col) :
    importFieldLiteral escapeValue nullval layout name nullval =
      some (if layout.clustering_key_columns.contains name &&
              !col.cqltype.unwrapReversed.emptyBinaryOk then
        "blobAs" ++ pyTitle col.cqltype.unwrapReversed.cqlParameterizedType ++
          "(0x)"
      else "null") ∧
    ∀ lit, importFieldLiteral escapeValue nullval layout name nullval =
        some lit → lit ≠ "" ∧ lit ≠ "''" := by
  have hmain : importFieldLiteral escapeValue nullval layout name nullval =
      some (if layout.clustering_key_columns.contains name &&
              !col.cqltype.unwrapReversed.emptyBinaryOk then
        "blobAs" ++ pyTitle col.cqltype.unwrapReversed.cqlParameterizedType ++
          "(0x)"
      else "null") := by
    rw [importFieldLiteral, hcol]
    simp
  refine ⟨hmain, fun lit hlit => ?_⟩
  rw [hmain] at hlit
  have hlit' := Option.some.inj hlit
  by_cases hcase : layout.clustering_key_columns.contains name &&
      !col.cqltype.unwrapReversed.emptyBinaryOk
  · rw [if_pos hcase] at hlit'
    subst hlit'
    have hb : ("blobAs" : String).length = 6 := rfl
    have hp : ("(0x)" : String).length = 4 := rfl
    have hq : ("''" : String).length = 2 := rfl
    have he : ("" : String).length = 0 := rfl
    constructor
    · intro hempty
      have hlen := congrArg String.length hempty
      rw [String.length_append, String.length_append, hb, hp, he] at hlen
      omega
    · intro heq
      have hlen := congrArg String.length heq
      rw [String.length_append, String.length_append, hb, hp, hq] at hlen
      omega
  · rw [if_neg hcase] at hlit'
    subst hlit'
    exact ⟨by decide, by decide⟩

theorem null_token_field_mapping_witness :
    importFieldLiteral (fun s => s) "NULL"
      ⟨[⟨"pk", .scalar "uuid" false⟩, ⟨"ck", .scalar "int" false⟩,
        ⟨"v", .scalar "text" true⟩], ["ck"]⟩ "ck" "NULL" =
      some "blobAsInt(0x)" := by
  have h := null_token_field_mapping (fun s => s) "NULL"
    ⟨[⟨"pk", .scalar "uuid" false⟩, ⟨"ck", .scalar "int" false⟩,
      ⟨"v", .scalar "text" true⟩], ["ck"]⟩ "ck" ⟨"ck", .scalar "int" false⟩ rfl
  rw [h.1]
  rfl

/-! ## Schema regenerator: `Shell.print_recreate_columnfamily`

`cqlsh.py` lines 1103-1222.  The function re-reads the catalog
(`get_columnfamily_layout`, itself two fresh system-table selects turned
into a `CqlTableDef` by the external `cql3handling.CqlTableDef.from_layout`)
and then only calls `out.write`.  The strongly-typed layout is modelled by
`CfLayout`; the external escaping helpers (`cqlruleset.maybe_escape_name`,
`cqlruleset.escape_value`) and the two fixed option tables
(`cqlruleset.columnfamily_layout_options`,
`cqlruleset.columnfamily_layout_map_options`) are carried in `RegenCtx`.
Each `out.write` call contributes one chunk, so a run on a stream is a left
fold of string append. -/

/-- A Python attribute value as `cql_protect_value` sees it:
`escape_value` quotes strings and passes any other value through its
`%s` rendering unchanged. -/
inductive PyVal where
  | str (s : String)
  | raw (rendering : String)

/-- A column row of the layout, with the attributes the regenerator reads:
name, type, `is_static()`, and the index triple. -/
structure LayoutColumn where
  name : String
  cqltype : CqlType
  isStatic : Bool
  index_name : Option String
  index_type : Option String
  /-- `index_options[u'class_name']`, consulted only for CUSTOM indexes -/
  index_class_name : String

/-- The slice of `CqlTableDef` consulted by
`print_recreate_columnfamily`. -/
structure CfLayout where
  name : String
  columns : List LayoutColumn
  partition_key_columns : List String
  clustering_key_columns : List String
  comparator : CqlType
  /-- `layout.is_compact_storage()` -/
  compactStorage : Bool
  compaction_strategy_class : String
  /-- `getattr(layout, attr, None)` for scalar option attributes -/
  scalarOpt : String → Option PyVal
  /-- `getattr(layout, attr, \x7b\x7d)` for map-valued option attributes;
  iteration order of the Python dict is part of the value -/
  mapOpt : String → List (String × String)

/-- External collaborators of the regenerator. -/
structure RegenCtx where
  /-- `cqlruleset.maybe_escape_name` via `cql_protect_name` -/
  escapeName : String → String
  /-- `cqlruleset.escape_value` via `cql_protect_value` -/
  escapeValue : String → String
  /-- `cqlruleset.columnfamily_layout_options`: `(cql3option, layoutoption)`
  pairs, `none` meaning the names coincide -/
  layoutOptions : List (String × Option String)
  /-- `cqlruleset.columnfamily_layout_map_options`, third component unused
  by this function -/
  layoutMapOptions : List (String × Option String)

/-- `cqlshlib.util.trim_if_present(val, prefix)`. -/
def trimIfPresent (s pre : String) : String :=
  if s.startsWith pre then s.drop pre.length else s

/-- `cql_protect_value` semantics on a Python value. -/
def protectPyVal (ctx : RegenCtx) : PyVal → String
  | .str s => ctx.escapeValue s
  | .raw r => r

/-- `getattr(layout, attr, None)`: `compaction_strategy_class` is a real
attribute (a string), the rest go through the option map. -/
def CfLayout.getattrOpt (layout : CfLayout) (attr : String) : Option PyVal :=
  if attr == "compaction_strategy_class" then
    some (.str layout.compaction_strategy_class)
  else layout.scalarOpt attr

def assocGet (m : List (String × String)) (k : String) : Option String :=
  (m.find? (fun p => p.1 == k)).map (fun p => p.2)

/-- Python dict item assignment on the association-list model: replace in
place when the key exists, append otherwise. -/
def assocSet : List (String × String) → String → String → List (String × String)
  | [], k, v => [(k, v)]
  | (k', v') :: rest, k, v =>
    if k' == k then (k, v) :: rest else (k', v') :: assocSet rest k v

/-- The writes for one column definition line (cqlsh.py lines 1114-1125). -/
def columnChunks (ctx : RegenCtx) (col : LayoutColumn) : List String :=
  let coltype := col.cqltype.unwrapReversed
  ["  " ++ ctx.escapeName col.name ++ " " ++ coltype.cqlParameterizedType] ++
  (if col.isStatic then [" static"] else []) ++ [",\n"]

/-- The clustering component types (cqlsh.py lines 1145-1149). -/
def clusteringTypes (layout : CfLayout) : List CqlType :=
  if layout.comparator.isComposite then layout.comparator.subtypes
  else [layout.comparator]

/-- The `", ".join(inner)` payload of the clustering-order clause
(cqlsh.py lines 1159-1165): protected clustering names zipped with the
clustering component types, `DESC` for reversed, `ASC` otherwise. -/
def clusteringOrderInner (ctx : RegenCtx) (layout : CfLayout) : String :=
  ", ".intercalate
    (((layout.clustering_key_columns.map ctx.escapeName).zip
        (clusteringTypes layout)).map fun p =>
      p.1 ++ " " ++ (if p.2.isReversed then "DESC" else "ASC"))

/-- The compact-storage and clustering-order writes (cqlsh.py lines
1137-1168), returning the chunks and the `joiner` value left for the
option clauses. -/
def compactClusteringSection (ctx : RegenCtx) (layout : CfLayout) :
    List String × String :=
  let start : List String × String :=
    if layout.compactStorage then ([" WITH COMPACT STORAGE"], "AND")
    else ([], "WITH")
  if layout.clustering_key_columns.isEmpty then start
  else
    let ctypes := clusteringTypes layout
    if ctypes.any (fun t => t.isReversed) then
      (start.1 ++
        [if layout.compactStorage then " AND\n " else " WITH",
         " CLUSTERING ORDER BY (", clusteringOrderInner ctx layout, ")"],
       "AND")
    else start

/-- A `cf_opts` entry value: an already-protected scalar rendering or a
map still to be rendered. -/
inductive OptVal where
  | scalar (s : String)
  | map (m : List (String × String))

/-- One iteration of the scalar option loop (cqlsh.py lines 1173-1187);
`none` models `continue`. -/
def buildScalarOpt (ctx : RegenCtx) (layout : CfLayout)
    (compactionStrategy : String) (entry : String × Option String) :
    Option (String × OptVal) :=
  let cql3option := entry.1
  let layoutoption := entry.2.getD cql3option
  match layout.getattrOpt layoutoption with
  | none =>
    if layoutoption == "bloom_filter_fp_chance" then
      some (cql3option, .scalar
        (if compactionStrategy == "LeveledCompactionStrategy" then "0.1"
         else "0.01"))
    else none
  | some v =>
    let v := if layoutoption == "compaction_strategy_class" then
        PyVal.str compactionStrategy
      else v
    some (cql3option, .scalar (protectPyVal ctx v))

/-- One iteration of the map option loop (cqlsh.py lines 1188-1200). -/
def buildMapOpt (layout : CfLayout) (compactionStrategy : String)
    (entry : String × Option String) : String × OptVal :=
  let cql3option := entry.1
  let layoutoption := entry.2.getD cql3option
  let optmap := layout.mapOpt layoutoption
  let optmap := if layoutoption == "compression_parameters" then
      match assocGet optmap "sstable_compression" with
      | some compclass =>
        assocSet optmap "sstable_compression"
          (trimIfPresent compclass "org.apache.cassandra.io.compress.")
      | none => optmap
    else optmap
  let optmap := if layoutoption == "compaction_strategy_options" then
      assocSet optmap "class" compactionStrategy
    else optmap
  (cql3option, .map optmap)

/-- The full `cf_opts` list (cqlsh.py lines 1170-1200). -/
def cfOpts (ctx : RegenCtx) (layout : CfLayout) : List (String × OptVal) :=
  let compactionStrategy := trimIfPresent layout.compaction_strategy_class
    "org.apache.cassandra.db.compaction."
  ctx.layoutOptions.filterMap (buildScalarOpt ctx layout compactionStrategy) ++
  ctx.layoutMapOptions.map (buildMapOpt layout compactionStrategy)

/-- Rendering of one option value at write time (cqlsh.py lines
1204-1207). -/
def renderOptVal (ctx : RegenCtx) : OptVal → String
  | .scalar s => s
  | .map m =>
    "\x7b" ++
      ", ".intercalate
        (m.map fun p => ctx.escapeValue p.1 ++ ": " ++ ctx.escapeValue p.2) ++
    "\x7d"

/-- The option clause writes (cqlsh.py lines 1202-1209) with the threaded
`joiner`. -/
def optionChunks (ctx : RegenCtx) :
    List (String × OptVal) → String → List String
  | [], _ => []
  | (optname, optval) :: rest, joiner =>
    (" " ++ joiner ++ "\n  " ++ optname ++ "=" ++ renderOptVal ctx optval) ::
      optionChunks ctx rest "AND"

/-- The index statement writes for one column (cqlsh.py lines 1212-1222). -/
def indexChunks (ctx : RegenCtx) (cfname : String) (col : LayoutColumn) :
    List String :=
  match col.index_name with
  | none => []
  | some iname =>
    ["\n",
     if col.index_type != some "CUSTOM" then
       "CREATE INDEX " ++ iname ++ " ON " ++ cfname ++ " (" ++
         ctx.escapeName col.name ++ ");\n"
     else
       "CREATE CUSTOM INDEX " ++ iname ++ " ON " ++ cfname ++ " (" ++
         ctx.escapeName col.name ++ ") USING '" ++ col.index_class_name ++
         "';\n"]

/-- All `out.write` payloads of `Shell.print_recreate_columnfamily`
(cqlsh.py lines 1103-1222), in order. -/
def printRecreateColumnfamilyChunks (ctx : RegenCtx) (layout : CfLayout) :
    List String :=
  let cfname := ctx.escapeName layout.name
  let partkeynames := layout.partition_key_columns.map ctx.escapeName
  let partkey := "(" ++ ", ".intercalate partkeynames ++ ")"
  let pk_parts := partkey :: layout.clustering_key_columns.map ctx.escapeName
  let cc := compactClusteringSection ctx layout
  ["CREATE TABLE " ++ cfname ++ " (\n"] ++
  (layout.columns.map (columnChunks ctx)).flatten ++
  ["  PRIMARY KEY (", ", ".intercalate pk_parts ++ ")", "\n)"] ++
  cc.1 ++
  optionChunks ctx (cfOpts ctx layout) cc.2 ++
  [";\n"] ++
  (layout.columns.map (indexChunks ctx cfname)).flatten

/-- Sequential `out.write` on a textual output stream. -/
def runPrintRecreateColumnfamily (ctx : RegenCtx) (layout : CfLayout)
    (stream : String) : String :=
  (printRecreateColumnfamilyChunks ctx layout).foldl
    (fun s c => s ++ c) stream

def joinChunks : List String → String
  | [] => ""
  | c :: rest => c ++ joinChunks rest

lemma foldl_append_eq_joinChunks :
    ∀ (l : List String) (s : String),
    l.foldl (fun a c => a ++ c) s = s ++ joinChunks l := by
  intro l
  induction l with
  | nil =>
    intro s
    simp [joinChunks]
  | cons c rest ih =>
    intro s
    rw [List.foldl_cons, ih, joinChunks, ← String.append_assoc]

/-- C7: the text `print_recreate_columnfamily` appends to its output
stream is one fixed string determined by the layout built from the catalog
rows — independent of whatever the stream already held, so regenerating a
table's definition twice from the same rows yields byte-identical
output. -/
theorem recreate_table_deterministic {Rows : Type} (ctx : RegenCtx)
    (fromLayout : Rows → CfLayout) (rows : Rows) (s₁ s₂ : String) :
    ∃ t : String,
      runPrintRecreateColumnfamily ctx (fromLayout rows) s₁ = s₁ ++ t ∧
      runPrintRecreateColumnfamily ctx (fromLayout rows) s₂ = s₂ ++ t := by
  refine ⟨joinChunks (printRecreateColumnfamilyChunks ctx (fromLayout rows)),
    ?_, ?_⟩ <;>
    rw [runPrintRecreateColumnfamily, foldl_append_eq_joinChunks]

lemma exists_zip_snd {α β : Type} (P : β → Bool) :
    ∀ (as : List α) (bs : List β), bs.length = as.length →
    ((∃ p ∈ as.zip bs, P p.2 = true) ↔ ∃ b ∈ bs, P b = true) := by
  intro as
  induction as with
  | nil =>
    intro bs hlen
    rcases bs with _ | ⟨b, bs⟩
    · simp
    · simp at hlen
  | cons a as ih =>
    intro bs hlen
    rcases bs with _ | ⟨b, bs⟩
    · simp at hlen
    · have htail := ih bs (by simpa using hlen)
      constructor
      · rintro ⟨p, hp, hP⟩
        rw [List.zip_cons_cons] at hp
        rcases List.mem_cons.mp hp with rfl | hp
        · exact ⟨b, List.mem_cons_self b bs, hP⟩
        · obtain ⟨b', hb', hPb⟩ := htail.mp ⟨p, hp, hP⟩
          exact ⟨b', List.mem_cons_of_mem b hb', hPb⟩
      · rintro ⟨b', hb', hPb⟩
        rcases List.mem_cons.mp hb' with rfl | hb'
        · exact ⟨(a, b'), by
            rw [List.zip_cons_cons]
            exact List.mem_cons_self _ _, hPb⟩
        · obtain ⟨p, hp, hP⟩ := htail.mpr ⟨b', hb', hPb⟩
          exact ⟨p, by
            rw [List.zip_cons_cons]
            exact List.mem_cons_of_mem _ hp, hP⟩

lemma compactClusteringSection_eq (ctx : RegenCtx) (layout : CfLayout) :
    (compactClusteringSection ctx layout).1 =
      (if layout.compactStorage then [" WITH COMPACT STORAGE"] else []) ++
      (if ¬layout.clustering_key_columns.isEmpty ∧
          (clusteringTypes layout).any (fun t => t.isReversed) then
        [if layout.compactStorage then " AND\n " else " WITH",
         " CLUSTERING ORDER BY (", clusteringOrderInner ctx layout, ")"]
      else []) := by
  rw [compactClusteringSection]
  by_cases hemp : layout.clustering_key_columns.isEmpty
  · by_cases hcompact : layout.compactStorage <;> simp [hemp, hcompact]
  · by_cases hrev : (clusteringTypes layout).any (fun t => t.isReversed) <;>
      by_cases hcompact : layout.compactStorage <;>
        simp [hemp, hrev, hcompact]

/-- C8: the regenerated definition carries a clustering-order clause
exactly when some clustering column's component type is reversed
(descending); when present the clause follows ` WITH COMPACT STORAGE`
joined by ` AND` on a compact-storage table, and starts with ` WITH`
otherwise. -/
theorem clustering_order_clause (ctx : RegenCtx) (layout : CfLayout)
    (h : (clusteringTypes layout).length =
      layout.clustering_key_columns.length) :
    ((" CLUSTERING ORDER BY (" ∈ (compactClusteringSection ctx layout).1) ↔
      ∃ p ∈ layout.clustering_key_columns.zip (clusteringTypes layout),
        p.2.isReversed = true) ∧
    (" CLUSTERING ORDER BY (" ∈ (compactClusteringSection ctx layout).1 →
      (compactClusteringSection ctx layout).1 =
        (if layout.compactStorage then
          [" WITH COMPACT STORAGE", " AND\n ", " CLUSTERING ORDER BY (",
           clusteringOrderInner ctx layout, ")"]
        else
          [" WITH", " CLUSTERING ORDER BY (", clusteringOrderInner ctx layout,
           ")"])) := by
  have hzip := exists_zip_snd (fun t : CqlType => t.isReversed)
    layout.clustering_key_columns (clusteringTypes layout) h
  rw [compactClusteringSection_eq]
  by_cases hemp : layout.clustering_key_columns.isEmpty
  · have hcols : layout.clustering_key_columns = [] := by
      simpa using hemp
    by_cases hcompact : layout.compactStorage <;>
      simp [hemp, hcols, hcompact]
  · have hemp' : layout.clustering_key_columns.isEmpty = false :=
      Bool.eq_false_iff.mpr hemp
    by_cases hrev : (clusteringTypes layout).any (fun t => t.isReversed) = true
    · have hex : ∃ b ∈ clusteringTypes layout, b.isReversed = true := by
        simpa using hrev
      constructor
      · exact iff_of_true
          (by by_cases hcompact : layout.compactStorage <;>
            simp [hemp', hrev, hcompact])
          (hzip.mpr hex)
      · intro _
        by_cases hcompact : layout.compactStorage <;>
          simp [hemp', hrev, hcompact]
    · have hrev' : (clusteringTypes layout).any (fun t => t.isReversed) =
          false := Bool.eq_false_iff.mpr hrev
      have hnoex : ¬∃ b ∈ clusteringTypes layout, b.isReversed = true := by
        simpa using hrev'
      have hnomem : " CLUSTERING ORDER BY (" ∉
          (if layout.compactStorage then [" WITH COMPACT STORAGE"]
            else []) ++
          (if ¬layout.clustering_key_columns.isEmpty ∧
              (clusteringTypes layout).any (fun t => t.isReversed) then
            [if layout.compactStorage then " AND\n " else " WITH",
             " CLUSTERING ORDER BY (", clusteringOrderInner ctx layout, ")"]
          else []) := by
        by_cases hcompact : layout.compactStorage <;>
          simp [hemp', hrev', hcompact]
      exact ⟨iff_of_false hnomem (fun hx => hnoex (hzip.mp hx)),
        fun hmem => absurd hmem hnomem⟩

theorem clustering_order_clause_witness :
    (compactClusteringSection
      ⟨fun s => s, fun s => s, [], []⟩
      ⟨"t", [], ["pk"], ["c1", "c2"],
        .composite [.reversed (.scalar "int" false), .scalar "text" true],
        true, "SizeTieredCompactionStrategy", fun _ => none, fun _ => []⟩).1 =
      [" WITH COMPACT STORAGE", " AND\n ", " CLUSTERING ORDER BY (",
       "c1 DESC, c2 ASC", ")"] := by
  have h := (clustering_order_clause
    ⟨fun s => s, fun s => s, [], []⟩
    ⟨"t", [], ["pk"], ["c1", "c2"],
      .composite [.reversed (.scalar "int" false), .scalar "text" true],
      true, "SizeTieredCompactionStrategy", fun _ => none, fun _ => []⟩
    (by simp [clusteringTypes, CqlType.isComposite, CqlType.subtypes])).2
  rw [h (by
    rw [compactClusteringSection]
    simp [clusteringTypes, CqlType.isComposite, CqlType.subtypes,
      CqlType.isReversed])]
  simp [clusteringOrderInner, clusteringTypes, CqlType.isComposite,
    CqlType.subtypes, CqlType.isReversed]
  decide
